import Mathlib

/-!
Shallow embedding of the UnderCurrent HRV / readiness core
(`src/backend/hrv_calculator.py`, `src/backend/baseline_tracker.py`,
`src/backend/energy_budget_calculator.py`) and proofs about it.

Conventions of the embedding:
* Python floats are modelled as rationals (`ℚ`).
* Python `None`-able fields are modelled as `Option ℚ`; Python truthiness
  tests (`if x:`) on such a field are `x ≠ None ∧ x ≠ 0`, while
  `x is not None` tests only the `Option` constructor.
* `raise ValueError/NotImplementedError` is modelled as `Except CalcError`;
  the error kinds follow the messages raised by the source.
* Transcendental library functions (`np.log`, `np.sqrt`) and the Welch
  spectral estimator (`scipy.signal.welch`) are external library code, not
  code of this repository; they enter the embedding as function parameters
  (`log`, `sqrt`, `welch`), so every theorem holds for any interpretation
  of them. Simple numpy array helpers (`mean`, `diff`, `cumsum`, `interp`,
  `trapz`, `arange`) are given concrete faithful definitions.
* Database queries become explicit arguments (the queried rows, already
  filtered and ordered as the source's query orders them), and table
  mutation becomes a function from the old row list to the new one.
-/

namespace UnderCurrent

/-- Error kinds of the core computations, one per distinct `raise` site class
in the source (`ValueError` for insufficient samples, `ValueError` for bad
input values, `ValueError` for a baseline lacking fields,
`NotImplementedError` for the AR spectral mode). -/
inductive CalcError where
  | insufficientData (msg : String)
  | invalidInput (msg : String)
  | missingBaselineData (msg : String)
  | notSupported (msg : String)
  deriving DecidableEq, Repr

/-- `backend.models.HRVReading` — the fields the core computations read.
All metric and context fields are nullable `Float` columns. -/
structure HRVReading where
  rmssd : ℚ
  mean_hr : ℚ
  hf_power : Option ℚ
  lf_hf_ratio : Option ℚ
  sleep_duration : Option ℚ
  sleep_quality : Option ℚ
  deriving DecidableEq, Repr

/-- `backend.models.Baseline` — the fields the core computations read.
HRV statistics are always set by `calculate_baseline`; HR and power
statistics are nullable. -/
structure Baseline where
  mean_ln_rmssd : ℚ
  sd_ln_rmssd : ℚ
  mean_hr : Option ℚ
  sd_hr : Option ℚ
  mean_hf_power : Option ℚ
  deriving DecidableEq, Repr

/-- Python truthiness of a nullable float: `None` and `0.0` are falsy. -/
def truthy : Option ℚ → Bool
  | none => false
  | some x => x ≠ 0

/-- `BaselineTracker.calculate_z_score`: `(value - mean) / sd`, returning
`0.0` when `sd == 0`. -/
def calculate_z_score (value baseline_mean baseline_sd : ℚ) : ℚ :=
  if baseline_sd = 0 then 0 else (value - baseline_mean) / baseline_sd

/-- `BaselineTracker.calculate_hrv_z_score`: raises on non-positive RMSSD,
else `calculate_z_score(ln rmssd, mean_ln_rmssd, sd_ln_rmssd)`.  `log` is
the embedding parameter standing for `np.log`. -/
def calculate_hrv_z_score (log : ℚ → ℚ) (rmssd : ℚ) (baseline : Baseline) :
    Except CalcError ℚ :=
  if rmssd ≤ 0 then
    .error (.invalidInput "RMSSD must be positive")
  else
    .ok (calculate_z_score (log rmssd) baseline.mean_ln_rmssd baseline.sd_ln_rmssd)

/-- `BaselineTracker.calculate_hr_z_score`: raises when the baseline's
`mean_hr` or `sd_hr` is `None`, else the plain z-score. -/
def calculate_hr_z_score (heart_rate : ℚ) (baseline : Baseline) :
    Except CalcError ℚ :=
  match baseline.mean_hr, baseline.sd_hr with
  | some m, some s => .ok (calculate_z_score heart_rate m s)
  | _, _ => .error (.missingBaselineData "Baseline lacks HR statistics")

/-- Result record of `BaselineTracker.interpret_hrv_z_score`. -/
structure Interpretation where
  z_score : ℚ
  status : String
  interpretation : String
  color : String
  deriving DecidableEq, Repr

/-- `BaselineTracker.interpret_hrv_z_score`: the six-way threshold cascade
from the source, top to bottom. -/
def interpret_hrv_z_score (z_score : ℚ) : Interpretation :=
  if z_score ≥ 0.5 then
    ⟨z_score, "excellent", "Well above baseline - excellent recovery", "green"⟩
  else if z_score ≥ 0 then
    ⟨z_score, "good", "Above baseline - good recovery", "green"⟩
  else if z_score ≥ -0.5 then
    ⟨z_score, "fair", "Slightly below baseline - monitor closely", "yellow"⟩
  else if z_score ≥ -1.0 then
    ⟨z_score, "low", "Below baseline - consider reducing activity", "orange"⟩
  else if z_score ≥ -1.5 then
    ⟨z_score, "warning", "Significantly below baseline - rest recommended", "red"⟩
  else
    ⟨z_score, "critical", "Critically low - prioritize rest and recovery", "red"⟩

/-! ### HRVCalculator (`src/backend/hrv_calculator.py`) -/

/-- `np.mean` of a list. -/
def listMean (xs : List ℚ) : ℚ := xs.sum / xs.length

/-- `np.diff`: successive differences `x[i+1] - x[i]`. -/
def npDiff (xs : List ℚ) : List ℚ :=
  (xs.zip xs.tail).map fun p => p.2 - p.1

/-- Sample variance with `ddof=1` (the square of `np.std(xs, ddof=1)`). -/
def sampleVariance (xs : List ℚ) : ℚ :=
  (xs.map fun x => (x - listMean xs) ^ 2).sum / ((xs.length : ℚ) - 1)

/-- Result record of `HRVCalculator.calculate_time_domain`. -/
structure TimeDomainMetrics where
  mean_rri : ℚ
  mean_hr : ℚ
  sdnn : ℚ
  rmssd : ℚ
  pnn50 : ℚ
  deriving DecidableEq, Repr

/-- `HRVCalculator.calculate_time_domain`.  `sqrt` is the embedding
parameter standing for `np.sqrt`. -/
def calculate_time_domain (sqrt : ℚ → ℚ) (rr_intervals : List ℚ) :
    Except CalcError TimeDomainMetrics :=
  if rr_intervals.length < 2 then
    .error (.insufficientData "Need at least 2 RR intervals for time domain analysis")
  else
    let mean_rri := listMean rr_intervals
    let mean_hr := 60000 / mean_rri
    let sdnn := sqrt (sampleVariance rr_intervals)
    let successive_diffs := npDiff rr_intervals
    let rmssd := sqrt (listMean (successive_diffs.map fun d => d ^ 2))
    let nn50_count := (successive_diffs.filter fun d => |d| > 50).length
    let pnn50 := ((nn50_count : ℚ) / successive_diffs.length) * 100
    .ok ⟨mean_rri, mean_hr, sdnn, rmssd, pnn50⟩

/-- `np.cumsum`: running partial sums. -/
def cumsum : List ℚ → List ℚ
  | [] => []
  | x :: xs => x :: (cumsum xs).map (x + ·)

/-- `np.arange start stop step` for a positive step: `start + i*step` for
`i = 0, …, ⌈(stop-start)/step⌉ - 1`. -/
def arange (start stop step : ℚ) : List ℚ :=
  (List.range (((stop - start) / step).ceil.toNat)).map fun i => start + i * step

/-- `np.interp` at one query point, over the graph `points = zip xp fp`
(assumed sorted by first component): clamp outside the range, linear
interpolation inside. -/
def interpAt : List (ℚ × ℚ) → ℚ → ℚ
  | [], _ => 0
  | [(_, f)], _ => f
  | (x1, f1) :: (x2, f2) :: rest, t =>
    if t ≤ x1 then f1
    else if t ≤ x2 then f1 + (f2 - f1) * (t - x1) / (x2 - x1)
    else interpAt ((x2, f2) :: rest) t

/-- `np.trapz ys xs`: trapezoidal integration of samples `ys` at
positions `xs`. -/
def trapz (ys xs : List ℚ) : ℚ :=
  (((xs.zip xs.tail).zip (ys.zip ys.tail)).map fun p =>
    (p.1.2 - p.1.1) * (p.2.1 + p.2.2) / 2).sum

/-- `HRVCalculator._calculate_band_power`: mask the PSD to
`band.lo ≤ f < band.hi` and integrate by the trapezoidal rule. -/
def _calculate_band_power (freqs psd : List ℚ) (band : ℚ × ℚ) : ℚ :=
  let masked := (freqs.zip psd).filter fun p => band.1 ≤ p.1 ∧ p.1 < band.2
  trapz (masked.map Prod.snd) (masked.map Prod.fst)

/-- Result record of `HRVCalculator.calculate_frequency_domain`. -/
structure FrequencyDomainMetrics where
  vlf_power : ℚ
  lf_power : ℚ
  hf_power : ℚ
  total_power : ℚ
  lf_hf_ratio : ℚ
  lf_nu : ℚ
  hf_nu : ℚ
  deriving DecidableEq, Repr

/-- `HRVCalculator.calculate_frequency_domain`.  `welch` is the embedding
parameter standing for `scipy.signal.welch`: it takes the resampled
signal, the sampling rate and `nperseg`, and returns `(freqs, psd)`. -/
def calculate_frequency_domain
    (welch : List ℚ → ℚ → ℕ → List ℚ × List ℚ)
    (rr_intervals : List ℚ) (method : String := "welch") :
    Except CalcError FrequencyDomainMetrics :=
  if rr_intervals.length < 60 then
    .error (.insufficientData "Need at least 60 RR intervals for frequency domain analysis")
  else
    let resampling_rate : ℚ := 4
    let time_stamps := 0 :: (cumsum rr_intervals).map (· / 1000)
    let total_time := time_stamps.getLast?.getD 0
    let even_time := arange 0 total_time (1 / resampling_rate)
    let rr_interpolated :=
      even_time.map (interpAt (time_stamps.dropLast.zip rr_intervals))
    if method = "welch" then
      let fp := welch rr_interpolated resampling_rate (min 256 rr_interpolated.length)
      let freqs := fp.1
      let psd := fp.2
      let vlf_band : ℚ × ℚ := (33 / 10000, 4 / 100)
      let lf_band : ℚ × ℚ := (4 / 100, 15 / 100)
      let hf_band : ℚ × ℚ := (15 / 100, 40 / 100)
      let vlf_power := _calculate_band_power freqs psd vlf_band
      let lf_power := _calculate_band_power freqs psd lf_band
      let hf_power := _calculate_band_power freqs psd hf_band
      let total_power := vlf_power + lf_power + hf_power
      let lf_hf_ratio := if hf_power > 0 then lf_power / hf_power else 0
      let total_minus_vlf := total_power - vlf_power
      let lf_nu := if total_minus_vlf > 0 then lf_power / total_minus_vlf * 100 else 0
      let hf_nu := if total_minus_vlf > 0 then hf_power / total_minus_vlf * 100 else 0
      .ok ⟨vlf_power, lf_power, hf_power, total_power, lf_hf_ratio, lf_nu, hf_nu⟩
    else
      .error (.notSupported "AR method not yet implemented")

/-- `HRVCalculator.calculate_all_metrics`: time domain then frequency
domain (Welch), merging results; either failure propagates unchanged. -/
def calculate_all_metrics (sqrt : ℚ → ℚ)
    (welch : List ℚ → ℚ → ℕ → List ℚ × List ℚ)
    (rr_intervals : List ℚ) :
    Except CalcError (TimeDomainMetrics × FrequencyDomainMetrics) := do
  let time_metrics ← calculate_time_domain sqrt rr_intervals
  let freq_metrics ← calculate_frequency_domain welch rr_intervals
  return (time_metrics, freq_metrics)

/-- The quality issues `HRVCalculator.check_data_quality` can report,
with the counts / percentage the source interpolates into the message
strings. -/
inductive QualityIssue where
  | impossibleIntervals (count : ℕ)
  | extremeSuccessiveDiffs (count : ℕ)
  | highArtifactRate (percentage : ℚ)
  | insufficientLength (count : ℕ)
  deriving DecidableEq, Repr

/-- Result record of `HRVCalculator.check_data_quality`. -/
structure QualityReport where
  is_valid : Bool
  artifact_count : ℕ
  artifact_percentage : ℚ
  total_intervals : ℕ
  issues : List QualityIssue
  deriving DecidableEq, Repr

/-- `HRVCalculator.check_data_quality` with physiological HR bounds
(defaults 200 / 30 bpm). -/
def check_data_quality (rr_intervals : List ℚ)
    (max_hr : ℚ := 200) (min_hr : ℚ := 30) : QualityReport :=
  let max_rri := 60000 / min_hr
  let min_rri := 60000 / max_hr
  let invalid_rri_count :=
    (rr_intervals.filter fun x => x > max_rri ∨ x < min_rri).length
  let issues0 : List QualityIssue :=
    if invalid_rri_count > 0 then [.impossibleIntervals invalid_rri_count] else []
  let successive_diffs := (npDiff rr_intervals).map (|·|)
  let extreme_diffs_count := (successive_diffs.filter fun d => d > 300).length
  let issues1 := issues0 ++
    (if extreme_diffs_count > 0 then [.extremeSuccessiveDiffs extreme_diffs_count] else [])
  let artifact_count := invalid_rri_count + extreme_diffs_count
  let total_intervals := rr_intervals.length
  let artifact_percentage :=
    if total_intervals > 0 then ((artifact_count : ℚ) / total_intervals) * 100 else 0
  let issues2 := issues1 ++
    (if artifact_percentage ≥ 5 then [.highArtifactRate artifact_percentage] else [])
  let issues3 := issues2 ++
    (if total_intervals < 60 then [.insufficientLength total_intervals] else [])
  { is_valid := artifact_percentage < 5 ∧ total_intervals ≥ 60
    artifact_count := artifact_count
    artifact_percentage := artifact_percentage
    total_intervals := total_intervals
    issues := issues3 }

/-! ### EnergyBudgetCalculator (`src/backend/energy_budget_calculator.py`) -/

/-- Clamp to `[0, 100]`, the source's `max(0, min(100, x))`. -/
def clamp100 (x : ℚ) : ℚ := max 0 (min 100 x)

/-- `EnergyBudgetCalculator._calculate_hrv_score`: clamped
`50 + 20·hrvZ`, blended 0.7/0.3 with a clamped HF-ratio score when both
the reading's `hf_power` and the baseline's `mean_hf_power` are truthy.
Propagates the `calculate_hrv_z_score` failure for non-positive RMSSD. -/
def _calculate_hrv_score (log : ℚ → ℚ) (reading : HRVReading)
    (baseline : Baseline) : Except CalcError ℚ := do
  let hrv_zscore ← calculate_hrv_z_score log reading.rmssd baseline
  let hrv_score_from_rmssd := clamp100 (50 + 20 * hrv_zscore)
  match reading.hf_power, baseline.mean_hf_power with
  | some hf, some mean_hf =>
    -- Python truthiness: `if reading.hf_power and baseline.mean_hf_power`
    if hf ≠ 0 ∧ mean_hf ≠ 0 then
      let hf_ratio := hf / mean_hf
      let hf_score := clamp100 (50 + 50 * (hf_ratio - 1))
      return hrv_score_from_rmssd * (7 / 10) + hf_score * (3 / 10)
    else
      return hrv_score_from_rmssd
  | _, _ => return hrv_score_from_rmssd

/-- `EnergyBudgetCalculator._calculate_rhr_score`: neutral `50` when the
baseline's HR statistics are falsy (`None` or `0`), else clamped
`50 − 20·hrZ`. -/
def _calculate_rhr_score (reading : HRVReading) (baseline : Baseline) : ℚ :=
  match baseline.mean_hr, baseline.sd_hr with
  | some m, some s =>
    -- Python truthiness: `if not baseline.mean_hr or not baseline.sd_hr`
    if m = 0 ∨ s = 0 then 50
    else clamp100 (50 - 20 * calculate_z_score reading.mean_hr m s)
  | _, _ => 50

/-- `EnergyBudgetCalculator._calculate_sleep_score`: device-reported
`sleep_quality` verbatim when present (`is not None`); else a banded
lookup on a truthy `sleep_duration`; else neutral `50`. -/
def _calculate_sleep_score (reading : HRVReading) : ℚ :=
  match reading.sleep_quality with
  | some q => q
  | none =>
    match reading.sleep_duration with
    | some d =>
      -- Python truthiness: `if reading.sleep_duration` — 0.0 is falsy
      if d = 0 then 50
      else if 7 ≤ d ∧ d ≤ 9 then 80
      else if 6 ≤ d ∧ d ≤ 10 then 60
      else if 5 ≤ d ∧ d ≤ 11 then 40
      else 30
    | none => 50

/-- `EnergyBudgetCalculator._calculate_stress_score`: banded lookup on
the LF/HF ratio when present (`is not None`), else neutral `50`. -/
def _calculate_stress_score (reading : HRVReading) : ℚ :=
  match reading.lf_hf_ratio with
  | some r =>
    if r ≤ 3 / 2 then 90
    else if r ≤ 5 / 2 then 70
    else if r ≤ 4 then 50
    else if r ≤ 6 then 30
    else 15
  | none => 50

/-- Consecutive-low-day loop of `EnergyBudgetCalculator._assess_pem_risk`:
walk the recent scores' `hrv_zscore`s (most recent first), counting while
`< −1.0` and breaking at the first non-qualifying entry. -/
def countConsecutiveLow : List ℚ → ℕ
  | [] => 0
  | z :: rest => if z < -1 then countConsecutiveLow rest + 1 else 0

/-- Result record of `EnergyBudgetCalculator._assess_pem_risk`. -/
structure PemRisk where
  level : String
  consecutive_days : ℕ
  deriving DecidableEq, Repr

/-- `EnergyBudgetCalculator._assess_pem_risk`.  The database query for
the trailing 7 days of `EnergyBudget.hrv_zscore`, ordered by date
descending, is passed in as `recent_scores`. -/
def _assess_pem_risk (recent_scores : List ℚ) (hrv_zscore rhr_zscore : ℚ) :
    PemRisk :=
  let consecutive_low_days := countConsecutiveLow recent_scores
  let risk_level :=
    if consecutive_low_days ≥ 3 then "high"
    else if consecutive_low_days ≥ 2 then "moderate"
    else if hrv_zscore < -3 / 2 ∨ rhr_zscore > 7 / 5 then "moderate"
    else if hrv_zscore < -1 then "moderate"
    else "low"
  ⟨risk_level, consecutive_low_days⟩

/-- `EnergyBudgetCalculator._generate_activity_recommendation`. -/
def _generate_activity_recommendation (energy_budget : ℚ)
    (pem_risk_level : String) (_hrv_zscore : ℚ) : String :=
  if pem_risk_level = "high" then "rest"
  else if energy_budget ≥ 70 then "normal"
  else if energy_budget ≥ 50 then "light"
  else if energy_budget ≥ 30 then "reduced"
  else "rest"

/-- Result record of `EnergyBudgetCalculator.calculate_readiness`. -/
structure ReadinessResult where
  energy_budget : ℚ
  hrv_score : ℚ
  rhr_score : ℚ
  sleep_score : ℚ
  stress_score : ℚ
  hrv_zscore : ℚ
  rhr_zscore : ℚ
  pem_risk_level : String
  consecutive_low_days : ℕ
  activity_recommendation : String
  deriving DecidableEq, Repr

/-- `EnergyBudgetCalculator.calculate_readiness`, with the fixed weights
HRV 0.40 / RHR 0.30 / sleep 0.20 / stress 0.10.  Any `ValueError` raised
along the way (non-positive RMSSD, baseline lacking HR statistics)
aborts the whole computation, exactly as an uncaught Python exception
does. -/
def calculate_readiness (log : ℚ → ℚ) (reading : HRVReading)
    (baseline : Baseline) (recent_scores : List ℚ) :
    Except CalcError ReadinessResult := do
  let hrv_score ← _calculate_hrv_score log reading baseline
  let rhr_score := _calculate_rhr_score reading baseline
  let sleep_score := _calculate_sleep_score reading
  let stress_score := _calculate_stress_score reading
  let energy_budget :=
    hrv_score * (40 / 100) + rhr_score * (30 / 100) +
    sleep_score * (20 / 100) + stress_score * (10 / 100)
  let hrv_zscore ← calculate_hrv_z_score log reading.rmssd baseline
  let rhr_zscore ← calculate_hr_z_score reading.mean_hr baseline
  let pem_risk := _assess_pem_risk recent_scores hrv_zscore rhr_zscore
  let activity_rec :=
    _generate_activity_recommendation energy_budget pem_risk.level hrv_zscore
  return { energy_budget := energy_budget
           hrv_score := hrv_score
           rhr_score := rhr_score
           sleep_score := sleep_score
           stress_score := stress_score
           hrv_zscore := hrv_zscore
           rhr_zscore := rhr_zscore
           pem_risk_level := pem_risk.level
           consecutive_low_days := pem_risk.consecutive_days
           activity_recommendation := activity_rec }

/-! ### Baseline persistence (`BaselineTracker.save_baseline`) -/

/-- One row of the `baselines` table, as far as activation is concerned. -/
structure BaselineRow where
  user_id : ℕ
  is_active : Bool
  data : Baseline
  deriving DecidableEq, Repr

/-- The rows of user `uid` that are marked active. -/
def activeRows (db : List BaselineRow) (uid : ℕ) : List BaselineRow :=
  db.filter fun r => r.user_id = uid ∧ r.is_active

/-- `BaselineTracker.save_baseline`: first the bulk UPDATE deactivating
every active baseline of the user, then the INSERT of the new row marked
active.  Returns the new table contents and the created row. -/
def save_baseline (db : List BaselineRow) (user_id : ℕ)
    (baseline_data : Baseline) : List BaselineRow × BaselineRow :=
  let deactivated := db.map fun r =>
    if r.user_id = user_id ∧ r.is_active then { r with is_active := false } else r
  let new_row : BaselineRow := ⟨user_id, true, baseline_data⟩
  (deactivated ++ [new_row], new_row)

/-- `BaselineTracker.get_active_baseline`: `.first()` of the active rows. -/
def get_active_baseline (db : List BaselineRow) (user_id : ℕ) :
    Option BaselineRow :=
  (activeRows db user_id).head?

/-! ### Specification-side definitions used to state the claims -/

/-- The PEM streak as the spec words it: the length of the initial run of
history entries (most recent first) whose HRV z-score is below −1.0. -/
def pemStreakSpec (history : List ℚ) : ℕ :=
  (history.takeWhile fun z => z < -1).length

/-- The per-row deactivation step of `save_baseline`, factored out for the
proofs below. -/
def deactF (uid : ℕ) (r : BaselineRow) : BaselineRow :=
  if r.user_id = uid ∧ r.is_active then { r with is_active := false } else r

/-! ### Helper lemmas -/

lemma clamp100_bounds (x : ℚ) : 0 ≤ clamp100 x ∧ clamp100 x ≤ 100 := by
  unfold clamp100
  refine ⟨le_max_left 0 _, max_le (by norm_num) (min_le_left _ _)⟩

lemma _calculate_hrv_score_isOk (log : ℚ → ℚ) (reading : HRVReading)
    (baseline : Baseline) (h : 0 < reading.rmssd) :
    ∃ s, _calculate_hrv_score log reading baseline = .ok s := by
  unfold _calculate_hrv_score calculate_hrv_z_score
  rw [if_neg (not_le.mpr h)]
  cases reading.hf_power with
  | none => exact ⟨_, rfl⟩
  | some hf =>
    cases baseline.mean_hf_power with
    | none => exact ⟨_, rfl⟩
    | some mhf =>
      dsimp only [Except.bind, Bind.bind]
      split_ifs <;> exact ⟨_, rfl⟩

lemma countConsecutiveLow_eq_pemStreakSpec (l : List ℚ) :
    countConsecutiveLow l = pemStreakSpec l := by
  induction l with
  | nil => rfl
  | cons z rest ih =>
    by_cases h : z < -1
    · simp [countConsecutiveLow, pemStreakSpec, List.takeWhile, h]
      simpa [pemStreakSpec] using ih
    · simp [countConsecutiveLow, pemStreakSpec, List.takeWhile, h]

lemma save_baseline_fst (db : List BaselineRow) (uid : ℕ) (d : Baseline) :
    (save_baseline db uid d).1 = db.map (deactF uid) ++ [⟨uid, true, d⟩] := rfl

lemma activeRows_deactF_self (db : List BaselineRow) (uid : ℕ) :
    activeRows (db.map (deactF uid)) uid = [] := by
  induction db with
  | nil => rfl
  | cons r rest ih =>
    simp only [List.map_cons, activeRows, List.filter_cons] at ih ⊢
    by_cases h : r.user_id = uid ∧ r.is_active
    · simpa [deactF, h] using ih
    · have h' : ¬(r.user_id = uid ∧ r.is_active = true) := by simpa using h
      simp only [deactF, if_neg h]
      rw [if_neg]
      · exact ih
      · simpa using h'

lemma activeRows_deactF_other (db : List BaselineRow) (uid v : ℕ) (hv : v ≠ uid) :
    activeRows (db.map (deactF uid)) v = activeRows db v := by
  induction db with
  | nil => rfl
  | cons r rest ih =>
    by_cases h : r.user_id = v
    · have hne : ¬ r.user_id = uid := by rw [h]; exact hv
      have hfr : deactF uid r = r := by
        unfold deactF; rw [if_neg]; exact fun hc => hne hc.1
      simp only [List.map_cons, hfr, activeRows, List.filter_cons] at ih ⊢
      rw [ih]
    · have h2 : ¬ (deactF uid r).user_id = v := by
        unfold deactF
        split_ifs with hc <;> exact h
      have e1 : decide ((deactF uid r).user_id = v ∧ (deactF uid r).is_active = true)
          = false := by simp [h2]
      have e2 : decide (r.user_id = v ∧ r.is_active = true) = false := by
        simp [h]
      simp only [List.map_cons, activeRows, List.filter_cons, e1, e2, if_false]
        at ih ⊢
      exact ih

lemma activeRows_save_baseline (db : List BaselineRow) (user_id : ℕ)
    (baseline_data : Baseline) (v : ℕ) :
    activeRows (save_baseline db user_id baseline_data).1 v =
      (if v = user_id then [(save_baseline db user_id baseline_data).2]
       else activeRows db v) := by
  rw [save_baseline_fst]
  unfold activeRows
  rw [List.filter_append]
  by_cases hv : v = user_id
  · subst hv
    have h0 := activeRows_deactF_self db v
    unfold activeRows at h0
    rw [h0]
    simp [save_baseline]
  · have h0 := activeRows_deactF_other db user_id v hv
    unfold activeRows at h0
    rw [h0]
    have hne : ¬((user_id : ℕ) = v) := fun h => hv h.symm
    simp [activeRows, hv, hne, save_baseline]

/-! ### The claims -/

/-- C1, counterexample: a baseline lacking HR statistics (both `mean_hr`
and `sd_hr` are `None`) makes `calculate_readiness` fail with the
missing-baseline-data error instead of completing, refuting the claim
that the overall computation still returns a full result. -/
theorem readiness_errors_without_hr_stats_cx :
    calculate_readiness (fun _ => 0) ⟨50, 60, none, none, none, none⟩
      ⟨4, 1, none, none, none⟩ [] =
    .error (.missingBaselineData "Baseline lacks HR statistics") := rfl

/-- C1, amended: for every reading with positive RMSSD and every baseline
lacking HR statistics (`mean_hr` or `sd_hr` is `None`), the RHR component
score does default to the neutral 50, but `calculate_readiness` does not
complete: it fails with the missing-baseline-data error raised while
computing the RHR z-score for the result record. -/
theorem rhr_score_defaults_but_readiness_errors (log : ℚ → ℚ)
    (reading : HRVReading) (baseline : Baseline) (recent_scores : List ℚ)
    (hmiss : baseline.mean_hr = none ∨ baseline.sd_hr = none)
    (hpos : 0 < reading.rmssd) :
    _calculate_rhr_score reading baseline = 50 ∧
    calculate_readiness log reading baseline recent_scores =
      .error (.missingBaselineData "Baseline lacks HR statistics") := by
  have hhr : calculate_hr_z_score reading.mean_hr baseline =
      .error (.missingBaselineData "Baseline lacks HR statistics") := by
    unfold calculate_hr_z_score
    rcases hmiss with h | h
    · rw [h]
    · rcases hm : baseline.mean_hr with _ | m
      · rfl
      · rw [h]
  have hrhr : _calculate_rhr_score reading baseline = 50 := by
    unfold _calculate_rhr_score
    rcases hmiss with h | h
    · rw [h]
    · rcases hm : baseline.mean_hr with _ | m
      · rfl
      · rw [h]
  refine ⟨hrhr, ?_⟩
  obtain ⟨s, hs⟩ := _calculate_hrv_score_isOk log reading baseline hpos
  have hz : calculate_hrv_z_score log reading.rmssd baseline =
      .ok (calculate_z_score (log reading.rmssd)
        baseline.mean_ln_rmssd baseline.sd_ln_rmssd) := by
    unfold calculate_hrv_z_score
    rw [if_neg (not_le.mpr hpos)]
  unfold calculate_readiness
  rw [hs, hz, hhr]
  rfl

/-- C1, witness: the amended theorem applied at a concrete reading and a
concrete baseline without HR statistics. -/
theorem rhr_score_defaults_but_readiness_errors_witness :
    _calculate_rhr_score ⟨50, 60, none, none, none, none⟩
      ⟨4, 1, none, none, none⟩ = 50 ∧
    calculate_readiness (fun _ => 1) ⟨50, 60, none, none, none, none⟩
      ⟨4, 1, none, none, none⟩ [] =
      .error (.missingBaselineData "Baseline lacks HR statistics") :=
  rhr_score_defaults_but_readiness_errors (fun _ => 1)
    ⟨50, 60, none, none, none, none⟩ ⟨4, 1, none, none, none⟩ []
    (Or.inl rfl) (by norm_num)

/-- C2, counterexample: a device-reported `sleep_quality` of 150 is
returned verbatim by the sleep component, so that sub-score is not in
`[0, 100]`, refuting the claim that all four sub-scores are clamped. -/
theorem sleep_score_unclamped_cx :
    _calculate_sleep_score ⟨50, 60, none, none, none, some 150⟩ = 150 ∧
    ¬ _calculate_sleep_score ⟨50, 60, none, none, none, some 150⟩ ≤ 100 := by
  decide

/-- C2, amended: the HRV, RHR and stress component sub-scores always lie
in `[0, 100]`; the sleep sub-score lies in `[0, 100]` whenever the
device-reported `sleep_quality` is absent or itself within `[0, 100]` —
but a `sleep_quality` outside `[0, 100]` is passed through verbatim,
unclamped. -/
theorem component_scores_bounded (log : ℚ → ℚ) (reading : HRVReading)
    (baseline : Baseline) (s : ℚ) :
    (_calculate_hrv_score log reading baseline = .ok s → 0 ≤ s ∧ s ≤ 100) ∧
    (0 ≤ _calculate_rhr_score reading baseline ∧
      _calculate_rhr_score reading baseline ≤ 100) ∧
    (0 ≤ _calculate_stress_score reading ∧
      _calculate_stress_score reading ≤ 100) ∧
    ((reading.sleep_quality = none ∨
        ∃ q, reading.sleep_quality = some q ∧ 0 ≤ q ∧ q ≤ 100) →
      0 ≤ _calculate_sleep_score reading ∧
      _calculate_sleep_score reading ≤ 100) := by
  refine ⟨?_, ?_, ?_, ?_⟩
  · intro h
    unfold _calculate_hrv_score calculate_hrv_z_score at h
    by_cases hr : reading.rmssd ≤ 0
    · rw [if_pos hr] at h; cases h
    · rw [if_neg hr] at h
      rcases hf : reading.hf_power with _ | hfv <;> rw [hf] at h
      · cases h
        exact clamp100_bounds _
      · rcases mhf : baseline.mean_hf_power with _ | mhfv <;> rw [mhf] at h
        · cases h
          exact clamp100_bounds _
        · dsimp only [Except.bind, Bind.bind] at h
          split_ifs at h with hcond
          · cases h
            have b1 := clamp100_bounds (50 + 20 * calculate_z_score
              (log reading.rmssd) baseline.mean_ln_rmssd baseline.sd_ln_rmssd)
            have b2 := clamp100_bounds (50 + 50 * (hfv / mhfv - 1))
            constructor <;> nlinarith [b1.1, b1.2, b2.1, b2.2]
          · cases h
            exact clamp100_bounds _
  · unfold _calculate_rhr_score
    rcases baseline.mean_hr with _ | m
    · norm_num
    · rcases baseline.sd_hr with _ | sd
      · norm_num
      · dsimp only
        split_ifs
        · norm_num
        · exact clamp100_bounds _
  · unfold _calculate_stress_score
    rcases reading.lf_hf_ratio with _ | r
    · norm_num
    · dsimp only
      split_ifs <;> norm_num
  · intro hq
    unfold _calculate_sleep_score
    rcases hq with h | ⟨q, hq, h0, h100⟩
    · rw [h]
      rcases reading.sleep_duration with _ | d
      · norm_num
      · dsimp only
        split_ifs <;> norm_num
    · rw [hq]
      exact ⟨h0, h100⟩

/-- C2, witness: the amended theorem applied at a concrete reading whose
HRV score evaluates to 0 and whose sleep quality is absent. -/
theorem component_scores_bounded_witness :
    (0 ≤ (0 : ℚ) ∧ (0 : ℚ) ≤ 100) ∧
    (0 ≤ _calculate_sleep_score ⟨50, 60, none, none, none, none⟩ ∧
      _calculate_sleep_score ⟨50, 60, none, none, none, none⟩ ≤ 100) :=
  ⟨(component_scores_bounded (fun _ => 0) ⟨50, 60, none, none, none, none⟩
      ⟨4, 1, none, none, none⟩ 0).1 (by norm_num [_calculate_hrv_score,
        calculate_hrv_z_score, calculate_z_score, clamp100, Except.bind]),
   (component_scores_bounded (fun _ => 0) ⟨50, 60, none, none, none, none⟩
      ⟨4, 1, none, none, none⟩ 0).2.2.2 (Or.inl rfl)⟩

/-- C3: the PEM risk assessment counts the streak of consecutive history
days with HRV z-score below −1.0 stopping at the first non-qualifying
day (so the history −1.2, −1.3, −0.9, −2.0 yields streak 2), and the
risk level is the ordered cascade: high for streak ≥ 3, else moderate
for streak ≥ 2 or current hrvZ < −1.5 or current rhrZ > 1.4 or current
hrvZ < −1.0, else low. -/
theorem assess_pem_risk_spec (history : List ℚ) (hrv_zscore rhr_zscore : ℚ) :
    (_assess_pem_risk history hrv_zscore rhr_zscore).consecutive_days =
      pemStreakSpec history ∧
    (_assess_pem_risk history hrv_zscore rhr_zscore).level =
      (if pemStreakSpec history ≥ 3 then "high"
       else if pemStreakSpec history ≥ 2 ∨ hrv_zscore < -3/2 ∨
               rhr_zscore > 7/5 ∨ hrv_zscore < -1 then "moderate"
       else "low") ∧
    pemStreakSpec [-1.2, -1.3, -0.9, -2.0] = 2 := by
  refine ⟨?_, ?_, by norm_num [pemStreakSpec, List.takeWhile]⟩
  · simp [_assess_pem_risk, countConsecutiveLow_eq_pemStreakSpec]
  · simp only [_assess_pem_risk, countConsecutiveLow_eq_pemStreakSpec]
    split_ifs <;> tauto

/-- C4: the z-score interpretation maps into six ordered buckets —
excellent iff z ≥ 0.5, good iff 0 ≤ z < 0.5, fair iff −0.5 ≤ z < 0,
low iff −1 ≤ z < −0.5, warning iff −1.5 ≤ z < −1, critical iff
z < −1.5 — and every result carries the z-score, a status label, a
non-empty human-readable text and a traffic-light color tag. -/
theorem interpret_hrv_z_score_buckets (z : ℚ) :
    ((interpret_hrv_z_score z).status = "excellent" ↔ 1/2 ≤ z) ∧
    ((interpret_hrv_z_score z).status = "good" ↔ 0 ≤ z ∧ z < 1/2) ∧
    ((interpret_hrv_z_score z).status = "fair" ↔ -(1/2) ≤ z ∧ z < 0) ∧
    ((interpret_hrv_z_score z).status = "low" ↔ -1 ≤ z ∧ z < -(1/2)) ∧
    ((interpret_hrv_z_score z).status = "warning" ↔ -(3/2) ≤ z ∧ z < -1) ∧
    ((interpret_hrv_z_score z).status = "critical" ↔ z < -(3/2)) ∧
    (interpret_hrv_z_score z).z_score = z ∧
    (interpret_hrv_z_score z).interpretation ≠ "" ∧
    ((interpret_hrv_z_score z).color = "green" ∨
      (interpret_hrv_z_score z).color = "yellow" ∨
      (interpret_hrv_z_score z).color = "orange" ∨
      (interpret_hrv_z_score z).color = "red") := by
  unfold interpret_hrv_z_score
  split_ifs with h1 h2 h3 h4 h5 <;>
    refine ⟨?_, ?_, ?_, ?_, ?_, ?_, rfl, by simp, by simp⟩ <;>
    norm_num at * <;>
    first
      | linarith
      | (constructor <;> linarith)
      | (simp; intros; linarith)

/-- C5, counterexample: at z = −1.0 the interpretation status is "low",
not "warning" as the claim states (−1.0 satisfies the z ≥ −1.0 branch,
which fires before the warning branch). -/
theorem interpret_at_neg_one_cx :
    (interpret_hrv_z_score (-1.0)).status = "low" ∧
    (interpret_hrv_z_score (-1.0)).status ≠ "warning" := by
  norm_num [interpret_hrv_z_score]
  decide

/-- C5, amended: the boundary inputs evaluate to status "excellent" at
z = 0.5, "good" at z = 0.49999, "low" at z = −1.0 (the ≥ −1.0 branch
fires there, making −1.0 the inclusive lower boundary of "low" rather
than the upper boundary of "warning"), "warning" at z = −1.5 (boundary
inclusive via the ≥ comparison), and "critical" at z = −1.50001. -/
theorem interpret_boundary_values :
    (interpret_hrv_z_score 0.5).status = "excellent" ∧
    (interpret_hrv_z_score 0.49999).status = "good" ∧
    (interpret_hrv_z_score (-1.0)).status = "low" ∧
    (interpret_hrv_z_score (-1.5)).status = "warning" ∧
    (interpret_hrv_z_score (-1.50001)).status = "critical" := by
  norm_num [interpret_hrv_z_score]

/-- C6: the quality check reports `is_valid` exactly when the artifact
percentage is below 5.0 and the total interval count is at least 60, and
its artifact count is the number of intervals outside the closed range
`[60000/max_hr, 60000/min_hr]` plus the number of successive absolute
differences above 300 ms, with no deduplication between the two checks. -/
theorem check_data_quality_spec (rr_intervals : List ℚ) (max_hr min_hr : ℚ) :
    (check_data_quality rr_intervals max_hr min_hr).artifact_count =
      (rr_intervals.filter fun x =>
        ¬(60000 / max_hr ≤ x ∧ x ≤ 60000 / min_hr)).length +
      ((npDiff rr_intervals).filter fun d => |d| > 300).length ∧
    (check_data_quality rr_intervals max_hr min_hr).total_intervals =
      rr_intervals.length ∧
    ((check_data_quality rr_intervals max_hr min_hr).is_valid = true ↔
      (check_data_quality rr_intervals max_hr min_hr).artifact_percentage < 5 ∧
      rr_intervals.length ≥ 60) := by
  refine ⟨?_, rfl, ?_⟩
  · simp only [check_data_quality]
    congr 1
    · congr 1
      apply List.filter_congr
      intro x _
      simp only [decide_eq_decide]
      constructor
      · rintro (h | h) ⟨h1, h2⟩ <;> linarith
      · intro h
        by_contra hc
        push_neg at hc
        exact h ⟨by linarith [hc.1], by linarith [hc.2]⟩
    · rw [List.filter_map, List.length_map]
      rfl
  · simp [check_data_quality]

/-- C7: the z-score is strictly monotonically increasing in the value for
every fixed mean and positive SD, and returns exactly 0 for SD = 0
regardless of value and mean. -/
theorem calculate_z_score_monotone_and_zero_sd :
    (∀ value mean : ℚ, calculate_z_score value mean 0 = 0) ∧
    (∀ (mean sd v1 v2 : ℚ), 0 < sd → v1 < v2 →
      calculate_z_score v1 mean sd < calculate_z_score v2 mean sd) := by
  constructor
  · intro v m; simp [calculate_z_score]
  · intro m sd v1 v2 hsd hv
    simp only [calculate_z_score, if_neg (ne_of_gt hsd)]
    gcongr <;> linarith

/-- C7, witness: strict monotonicity applied at mean 0, SD 2, values 1
and 3. -/
theorem calculate_z_score_monotone_witness :
    calculate_z_score 1 0 2 < calculate_z_score 3 0 2 :=
  calculate_z_score_monotone_and_zero_sd.2 0 2 1 3 (by norm_num) (by norm_num)

/-- C8: the time-domain computation fails with the insufficient-data
error exactly when given fewer than 2 intervals; the frequency-domain
computation (Welch mode) fails with the insufficient-data error exactly
when given fewer than 60 intervals; selecting the autoregressive mode on
an otherwise sufficient series fails with the not-supported error; and
the combined entry point propagates any failure unchanged, returning the
merged pair only when both sub-computations succeed. -/
theorem hrv_calculator_error_conditions (sqrt : ℚ → ℚ)
    (welch : List ℚ → ℚ → ℕ → List ℚ × List ℚ) (rr : List ℚ) :
    (rr.length < 2 →
      calculate_time_domain sqrt rr =
        .error (.insufficientData
          "Need at least 2 RR intervals for time domain analysis")) ∧
    (2 ≤ rr.length → ∃ td, calculate_time_domain sqrt rr = .ok td) ∧
    (rr.length < 60 →
      calculate_frequency_domain welch rr "welch" =
        .error (.insufficientData
          "Need at least 60 RR intervals for frequency domain analysis")) ∧
    (60 ≤ rr.length →
      ∃ fd, calculate_frequency_domain welch rr "welch" = .ok fd) ∧
    (60 ≤ rr.length →
      calculate_frequency_domain welch rr "ar" =
        .error (.notSupported "AR method not yet implemented")) ∧
    (∀ e, calculate_time_domain sqrt rr = .error e →
      calculate_all_metrics sqrt welch rr = .error e) ∧
    (∀ td e, calculate_time_domain sqrt rr = .ok td →
      calculate_frequency_domain welch rr "welch" = .error e →
      calculate_all_metrics sqrt welch rr = .error e) ∧
    (∀ td fd, calculate_time_domain sqrt rr = .ok td →
      calculate_frequency_domain welch rr "welch" = .ok fd →
      calculate_all_metrics sqrt welch rr = .ok (td, fd)) := by
  refine ⟨?_, ?_, ?_, ?_, ?_, ?_, ?_, ?_⟩
  · intro h
    unfold calculate_time_domain
    rw [if_pos h]
  · intro h
    unfold calculate_time_domain
    rw [if_neg (by omega : ¬ rr.length < 2)]
    exact ⟨_, rfl⟩
  · intro h
    unfold calculate_frequency_domain
    rw [if_pos h]
  · intro h
    unfold calculate_frequency_domain
    rw [if_neg (by omega : ¬ rr.length < 60)]
    exact ⟨_, rfl⟩
  · intro h
    unfold calculate_frequency_domain
    rw [if_neg (by omega : ¬ rr.length < 60)]
    dsimp only
    rw [if_neg (by decide : ¬ ("ar" : String) = "welch")]
  · intro e he
    unfold calculate_all_metrics
    rw [he]
    rfl
  · intro td e ht hf
    unfold calculate_all_metrics
    rw [ht]
    dsimp only [Except.bind, Bind.bind]
    rw [hf]
  · intro td fd ht hf
    unfold calculate_all_metrics
    rw [ht]
    dsimp only [Except.bind, Bind.bind]
    rw [hf]
    rfl

/-- C8, witness: the time-domain insufficient-data case applied at the
empty interval list. -/
theorem hrv_calculator_error_conditions_witness :
    calculate_time_domain (fun q => q) [] =
      .error (.insufficientData
        "Need at least 2 RR intervals for time domain analysis") :=
  (hrv_calculator_error_conditions (fun q => q) (fun _ _ _ => ([], [])) []).1
    (by decide)

/-- C9: saving a new baseline for a user leaves exactly one active
baseline for that user — the newly created one — and leaves every other
user's active rows untouched, so the at-most-one-active-baseline-per-user
invariant is established for that user and preserved for all others. -/
theorem save_baseline_single_active (db : List BaselineRow) (user_id : ℕ)
    (baseline_data : Baseline) (v : ℕ) :
    activeRows (save_baseline db user_id baseline_data).1 user_id =
      [(save_baseline db user_id baseline_data).2] ∧
    activeRows (save_baseline db user_id baseline_data).1 v =
      (if v = user_id then [(save_baseline db user_id baseline_data).2]
       else activeRows db v) := by
  refine ⟨?_, activeRows_save_baseline db user_id baseline_data v⟩
  rw [activeRows_save_baseline db user_id baseline_data user_id]
  simp

/-- C10: the quality check is total on the empty interval list — it
raises nothing and reports zero artifacts, zero artifact percentage
(the division is guarded by the count check), and invalidity because the
count is below 60. -/
theorem check_data_quality_empty :
    check_data_quality [] 200 30 =
      { is_valid := false, artifact_count := 0, artifact_percentage := 0,
        total_intervals := 0, issues := [.insufficientLength 0] } := by
  decide

end UnderCurrent
